import Mathlib

/-!
Skipper metrics observer (`pkg/metrics/observers/skipper.go`).

A shallow embedding of the Skipper observer and the properties of its
route-name encoding, its query rendering and its error handling.

Go strings are byte sequences; the regular-expression engine reads them rune
by rune with the UTF-8 decoder of `unicode/utf8`, so both layers are modelled:
a `GoString` is the list of its bytes and `DecodeRuneInString` is the decoder.
-/

namespace Skipper

/-! ## Go strings and UTF-8 decoding -/

/-- A Go `string`: its bytes, in order. -/
abbrev GoString := List Nat

/-- The bytes of a Lean string literal (UTF-8), used to write Go string literals. -/
def lit (s : String) : GoString :=
  s.data.flatMap (fun c => (String.utf8EncodeChar c).map UInt8.toNat)

/-- `utf8.RuneError`, the replacement rune U+FFFD. -/
def RuneError : Nat := 0xFFFD

/-- Classification of a first byte, the information held in `utf8.first` and
`utf8.acceptRanges`: ASCII, invalid, or the lead byte of a sequence of `size`
bytes whose second byte must lie in `[lo, hi]`. -/
inductive First where
  | ascii
  | invalid
  | lead (size lo hi : Nat)
  deriving DecidableEq, Repr

/-- The table `utf8.first` joined with `utf8.acceptRanges`. -/
def first (b : Nat) : First :=
  if b < 0x80 then .ascii
  else if b < 0xC2 then .invalid
  else if b < 0xE0 then .lead 2 0x80 0xBF
  else if b = 0xE0 then .lead 3 0xA0 0xBF
  else if b < 0xED then .lead 3 0x80 0xBF
  else if b = 0xED then .lead 3 0x80 0x9F
  else if b < 0xF0 then .lead 3 0x80 0xBF
  else if b = 0xF0 then .lead 4 0x90 0xBF
  else if b < 0xF4 then .lead 4 0x80 0xBF
  else if b = 0xF4 then .lead 4 0x80 0x8F
  else .invalid

/-- Go's `utf8.DecodeRuneInString`: the first rune of `s` and its width in
bytes. Invalid encodings give `(RuneError, 1)`, the empty string
`(RuneError, 0)`. -/
def DecodeRuneInString (s : GoString) : Nat × Nat :=
  match s with
  | [] => (RuneError, 0)
  | s0 :: _ =>
    match first s0 with
    | .ascii => (s0, 1)
    | .invalid => (RuneError, 1)
    | .lead sz lo hi =>
      if s.length < sz then (RuneError, 1) else
      let s1 := s.getD 1 0
      if s1 < lo ∨ hi < s1 then (RuneError, 1) else
      if sz ≤ 2 then (((s0 &&& 0x1F) <<< 6) ||| (s1 &&& 0x3F), 2) else
      let s2 := s.getD 2 0
      if s2 < 0x80 ∨ 0xBF < s2 then (RuneError, 1) else
      if sz ≤ 3 then
        (((s0 &&& 0x0F) <<< 12) ||| ((s1 &&& 0x3F) <<< 6) ||| (s2 &&& 0x3F), 3) else
      let s3 := s.getD 3 0
      if s3 < 0x80 ∨ 0xBF < s3 then (RuneError, 1) else
      (((s0 &&& 0x07) <<< 18) ||| ((s1 &&& 0x3F) <<< 12) ||| ((s2 &&& 0x3F) <<< 6)
        ||| (s3 &&& 0x3F), 4)

/-- The runes of a string as a `range` loop or `[]rune(s)` yields them: decode
at the current position, then skip the remaining `width - 1` bytes. The first
argument is the number of bytes still to skip. -/
def runesFrom : Nat → GoString → List Nat
  | _, [] => []
  | skip + 1, _ :: rest => runesFrom skip rest
  | 0, b :: rest =>
    let d := DecodeRuneInString (b :: rest)
    d.1 :: runesFrom (d.2 - 1) rest

/-- The runes of a string: `[]rune(s)`. -/
def runes (s : GoString) : List Nat := runesFrom 0 s

/-! ## The regular expression `\W` -/

/-- The Perl class `\w` of Go's `regexp/syntax`: `[0-9A-Za-z_]`, ASCII only. -/
def isWord (r : Nat) : Bool :=
  (0x30 ≤ r && r ≤ 0x39) || (0x41 ≤ r && r ≤ 0x5A) || r == 0x5F || (0x61 ≤ r && r ≤ 0x7A)

/-- Does the compiled expression `\W` match the rune `r`. -/
def nonWord (r : Nat) : Bool := !isWord r

/-- The loop of `nonWord.ReplaceAllString(src, repl)` for the one-rune
expression `\W` and a replacement without `$`: at each position the rune is
decoded; a matching rune is replaced by `repl` and the search resumes after
its bytes, a non-matching rune is copied. The first argument counts the bytes
of the current match still to be passed over. -/
def replaceAllFrom (repl : GoString) : Nat → GoString → GoString
  | _, [] => []
  | skip + 1, _ :: rest => replaceAllFrom repl skip rest
  | 0, b :: rest =>
    let d := DecodeRuneInString (b :: rest)
    if nonWord d.1 then repl ++ replaceAllFrom repl (d.2 - 1) rest
    else (b :: rest).take d.2 ++ replaceAllFrom repl (d.2 - 1) rest

/-- Model of `regexp.MustCompile("\\W").ReplaceAllString(src, repl)`. -/
def nonWordReplaceAllString (src repl : GoString) : GoString :=
  replaceAllFrom repl 0 src

/-! ## The template model -/

/-- The struct `flaggerv1.MetricTemplateModel` (declared in the API package):
the fields read by the query templates. -/
structure MetricTemplateModel where
  Name : GoString
  Namespace : GoString
  Target : GoString
  Service : GoString
  Ingress : GoString
  Interval : GoString
  deriving DecidableEq, Repr

/-- The function `encodeModelForSkipper`: replaces non word character in model
with underscore to match route names. -/
def encodeModelForSkipper (model : MetricTemplateModel) : MetricTemplateModel :=
  let model := { model with Ingress := nonWordReplaceAllString model.Ingress (lit "_") }
  let model := { model with Name := nonWordReplaceAllString model.Name (lit "_") }
  let model := { model with Namespace := nonWordReplaceAllString model.Namespace (lit "_") }
  let model := { model with Service := nonWordReplaceAllString model.Service (lit "_") }
  let model := { model with Target := nonWordReplaceAllString model.Target (lit "_") }
  model

/-- The rune-level reading of the encoding: a word rune is kept, any other
rune becomes `_`. -/
def underscoreNonWord (r : Nat) : Nat := if isWord r then r else 0x5F

/-- A relation between an input and an output model that holds at each of the
five fields `Ingress`, `Name`, `Namespace`, `Service` and `Target`. -/
def Fieldwise (P : GoString → GoString → Prop) (a b : MetricTemplateModel) : Prop :=
  P a.Ingress b.Ingress ∧ P a.Name b.Name ∧ P a.Namespace b.Namespace ∧
    P a.Service b.Service ∧ P a.Target b.Target

/-! ## Errors -/

/-- A Go `error` value: either some error with its message, or the value built
by `fmt.Errorf` with the verb `%w`, which keeps the wrapped error. -/
inductive GoError where
  | errorString (msg : GoString)
  | wrapError (msg : GoString) (err : GoError)
  deriving DecidableEq, Repr

/-- The method `Error()`. -/
def GoError.Error : GoError → GoString
  | .errorString msg => msg
  | .wrapError msg _ => msg

/-- The method `Unwrap()` as `errors.Unwrap` sees it. -/
def GoError.Unwrap : GoError → Option GoError
  | .errorString _ => none
  | .wrapError _ err => some err

/-- The call `fmt.Errorf(format, err)` for a format that is a literal text
followed by `%w`. -/
def Errorf (text : GoString) (err : GoError) : GoError :=
  .wrapError (text ++ err.Error) err

/-! ## Numbers -/

/-- The values of a `float64`: the finite ones by the rational number they
denote, negative zero, the infinities and NaN. -/
inductive Float64 where
  | finite (q : ℚ)
  | negZero
  | posInf
  | negInf
  | NaN
  deriving DecidableEq

/-- The real number a `float64` denotes, when it denotes one. -/
def Float64.real : Float64 → Option ℚ
  | .finite q => some q
  | .negZero => some 0
  | _ => none

/-- The constant `0` of type `float64`. -/
def Float64.zero : Float64 := .finite 0

/-- Reduction of an integer to the range of `int64` (two's complement). -/
def wrap64 (z : Int) : Int := (z + 2 ^ 63) % 2 ^ 64 - 2 ^ 63

/-- The fraction of a rational discarded, truncation toward zero. -/
def truncRat (q : ℚ) : Int := Int.tdiv q.num q.den

/-- The conversion `int64(value)`: the fraction is discarded; when the
truncated value is not an `int64` (also for infinities and NaN) the result is
what the platform gives, `undef value`. -/
def toInt64 (undef : Float64 → Int) (value : Float64) : Int :=
  match value with
  | .finite q =>
    if -2 ^ 63 ≤ truncRat q ∧ truncRat q < 2 ^ 63 then truncRat q else wrap64 (undef value)
  | .negZero => 0
  | _ => wrap64 (undef value)

/-- The constant `time.Millisecond`, in nanoseconds. -/
def Millisecond : Int := 1000000

/-! ## The backend client and the observer -/

/-- The method `RunQuery` of `providers.Interface`. The backend is outside the
program: a call reads and may change its state `σ`. The result is the Go pair
`(value, err)`. -/
structure Interface (σ : Type) where
  RunQuery : GoString → σ → (Float64 × Option GoError) × σ

/-- The type of the package function `RenderQuery(queryTemplate, model)`, with
the Go pair `(query, err)` as result. -/
abbrev Renderer := GoString → MetricTemplateModel → GoString × Option GoError

/-- The struct `SkipperObserver`. -/
structure SkipperObserver (σ : Type) where
  client : Interface σ

/-- A client that also records, in order, the queries it is asked to run. -/
def recording {σ : Type} (c : Interface σ) : Interface (σ × List GoString) where
  RunQuery query s :=
    let r := c.RunQuery query s.1
    (r.1, (r.2, s.2 ++ [query]))

/-- The map `skipperQueries`; a key that is absent gives the empty string. -/
def skipperQueries (key : String) : GoString :=
  if key = "request-success-rate" then
    lit "\n" ++
    lit "\t\x7b\x7b- $route := printf \"kube_%s__%s.*__%s\" namespace ingress service \x7d\x7d\n" ++
    lit "\tsum(\n" ++
    lit "\t\trate(\n" ++
    lit "\t\t\tskipper_response_duration_seconds_bucket\x7b\n" ++
    lit "\t\t\t\tnamespace=\"\x7b\x7b namespace \x7d\x7d\",\n" ++
    lit "\t\t\t\troute=~\"\x7b\x7b $route \x7d\x7d\",\n" ++
    lit "\t\t\t\tcode!~\"5..\",\n" ++
    lit "\t\t\t\tle=\"+Inf\"\n" ++
    lit "\t\t\t\x7d[\x7b\x7b interval \x7d\x7d]\n" ++
    lit "\t\t)\n" ++
    lit "\t)\n" ++
    lit "\t/ \n" ++
    lit "\tsum(\n" ++
    lit "\t\trate(\n" ++
    lit "\t\t\tskipper_response_duration_seconds_bucket\x7b\n" ++
    lit "\t\t\t\tnamespace=\"\x7b\x7b namespace \x7d\x7d\",\n" ++
    lit "\t\t\t\troute=~\"\x7b\x7b $route \x7d\x7d\",\n" ++
    lit "\t\t\t\tle=\"+Inf\"\n" ++
    lit "\t\t\t\x7d[\x7b\x7b interval \x7d\x7d]\n" ++
    lit "\t\t)\n" ++
    lit "\t)\n" ++
    lit "\t* 100"
  else if key = "request-duration" then
    lit "\n" ++
    lit "\t\x7b\x7b- $route := printf \"kube_%s__%s.*__%s\" namespace ingress service \x7d\x7d\n" ++
    lit "\tsum(\n" ++
    lit "\t\trate(\n" ++
    lit "\t\t\tskipper_response_duration_seconds_sum\x7b\n" ++
    lit "\t\t\t\tnamespace=\"\x7b\x7b namespace \x7d\x7d\",\n" ++
    lit "\t\t\t\troute=~\"\x7b\x7b $route \x7d\x7d\"\n" ++
    lit "\t\t\t\x7d[\x7b\x7b interval \x7d\x7d]\n" ++
    lit "\t\t)\n" ++
    lit "\t) \n" ++
    lit "\t/ \n" ++
    lit "\tsum(\n" ++
    lit "\t\trate(\n" ++
    lit "\t\t\tskipper_response_duration_seconds_count\x7b\n" ++
    lit "\t\t\t\tnamespace=\"\x7b\x7b namespace \x7d\x7d\",\n" ++
    lit "\t\t\t\troute=~\"\x7b\x7b $route \x7d\x7d\"\n" ++
    lit "\t\t\t\x7d[\x7b\x7b interval \x7d\x7d]\n" ++
    lit "\t\t)\n" ++
    lit "\t) \n" ++
    lit "\t* 1000"
  else []

/-! ## Query rendering

`RenderQuery` is defined in another file of the package (`render.go`), on top
of Go's `text/template`. The model below covers the part of the template
language that the two Skipper queries use: text, the left trim marker, an
action that prints a placeholder or a variable, and an action that declares a
variable as `printf` of a format with `%s` verbs applied to placeholders.
Anything else is reported as a rendering error. -/

/-- The placeholders of a query template. -/
inductive Placeholder where
  | namespace_
  | ingress
  | service
  | target
  | interval
  deriving DecidableEq, Repr

/-- The placeholder a name stands for, if any. -/
def lookupPlaceholder (name : GoString) : Option Placeholder :=
  if name = lit "namespace" then some .namespace_
  else if name = lit "ingress" then some .ingress
  else if name = lit "service" then some .service
  else if name = lit "target" then some .target
  else if name = lit "interval" then some .interval
  else none

/-- The value of a placeholder: the field of the model with its name. -/
def Placeholder.value (model : MetricTemplateModel) : Placeholder → GoString
  | .namespace_ => model.Namespace
  | .ingress => model.Ingress
  | .service => model.Service
  | .target => model.Target
  | .interval => model.Interval

/-- The space characters of the template lexer: `" \t\r\n"`. -/
def isSpace (c : Nat) : Bool := c == 0x20 || c == 0x09 || c == 0x0D || c == 0x0A

/-- `strings.TrimRight(s, " \t\r\n")`. -/
def trimRight (s : GoString) : GoString := (s.reverse.dropWhile isSpace).reverse

/-- The pieces of a template: text, and what stands between `{{` and `}}`. -/
inductive Item where
  | text (s : GoString)
  | action (body : GoString)
  deriving DecidableEq, Repr

/-- Cuts a template at its delimiters. The flag says whether the position is
inside an action, the accumulator holds the bytes of the current piece in
reverse. An action left open is an error. -/
def lexItems : Bool → GoString → GoString → Option (List Item)
  | false, acc, [] => some [Item.text acc.reverse]
  | true, _, [] => none
  | inAction, acc, [c] => lexItems inAction (c :: acc) []
  | inAction, acc, c :: d :: rest =>
    if !inAction && c == 0x7B && d == 0x7B then
      (lexItems true [] rest).map (fun items => Item.text acc.reverse :: items)
    else if inAction && c == 0x7D && d == 0x7D then
      (lexItems false [] rest).map (fun items => Item.action acc.reverse :: items)
    else lexItems inAction (c :: acc) (d :: rest)

/-- Does an action start with the left trim marker, `-` and a space. -/
def hasLeftTrimMarker (body : GoString) : Bool :=
  match body with
  | c :: d :: _ => c == 0x2D && isSpace d
  | _ => false

/-- The left trim marker of an action removes the space that ends the text
before it. -/
def applyTrim : List Item → List Item
  | [] => []
  | Item.text t :: Item.action body :: rest =>
    if hasLeftTrimMarker body then
      Item.text (trimRight t) :: Item.action (body.drop 2) :: applyTrim rest
    else Item.text t :: Item.action body :: applyTrim rest
  | item :: rest => item :: applyTrim rest

/-- The words of an action: separated by space, a quoted string being one
word. The flag says whether the position is inside a quoted string. -/
def splitWords : Bool → GoString → GoString → List GoString
  | _, acc, [] => if acc = [] then [] else [acc.reverse]
  | false, acc, c :: rest =>
    if isSpace c then
      if acc = [] then splitWords false [] rest else acc.reverse :: splitWords false [] rest
    else splitWords (c == 0x22) (c :: acc) rest
  | true, acc, c :: rest =>
    if c == 0x22 then (c :: acc).reverse :: splitWords false [] rest
    else splitWords true (c :: acc) rest

/-- The tokens of an action. -/
inductive Token where
  | ident (name : GoString)
  | variable (name : GoString)
  | declare
  | str (s : GoString)
  deriving DecidableEq, Repr

/-- The token a word is: `$name`, `:=`, `"text"` without escapes, or a name. -/
def classify (w : GoString) : Option Token :=
  match w with
  | [] => none
  | 0x24 :: name => if name.all isWord then some (.variable name) else none
  | 0x22 :: body =>
    match body.reverse with
    | 0x22 :: inner =>
      if inner.all (fun c => c != 0x5C && c != 0x22 && c != 0x0A) then some (.str inner.reverse)
      else none
    | _ => none
  | c :: _ =>
    if w = lit ":=" then some .declare
    else if w.all isWord && !(0x30 ≤ c && c ≤ 0x39) then some (.ident w)
    else none

/-- The nodes of a parsed template. -/
inductive Node where
  | text (s : GoString)
  | print (p : Placeholder)
  | printVar (name : GoString)
  | declPrintf (name : GoString) (format : GoString) (args : List Placeholder)
  deriving DecidableEq, Repr

/-- The argument of `printf` a token is: a placeholder. -/
def parseArg : Token → Option Placeholder
  | .ident name => lookupPlaceholder name
  | _ => none

/-- The node an action is. A name that is not a placeholder is the error
"function not defined" of `text/template`. -/
def parseAction (tokens : List Token) : Option Node :=
  match tokens with
  | [.ident name] => (lookupPlaceholder name).map Node.print
  | [.variable name] => some (.printVar name)
  | .variable name :: .declare :: .ident fn :: .str format :: args =>
    if fn = lit "printf" then (args.mapM parseArg).map (Node.declPrintf name format)
    else none
  | _ => none

/-- The node an item is. -/
def parseItem : Item → Option Node
  | .text s => some (.text s)
  | .action body => ((splitWords false [] body).mapM classify).bind parseAction

/-- The method `Parse` of a template. -/
def parseTemplate (queryTemplate : GoString) : Option (List Node) :=
  (lexItems false [] queryTemplate).bind (fun items => (applyTrim items).mapM parseItem)

/-- The call `fmt.Sprintf(format, args...)` for string arguments and a format
whose verbs are all `%s`, with one argument for each verb. -/
def Sprintf : GoString → List GoString → Option GoString
  | [], [] => some []
  | [], _ :: _ => none
  | [c], args => if c = 0x25 then none else (Sprintf [] args).map (fun out => c :: out)
  | c :: d :: rest, args =>
    if c = 0x25 then
      if d = 0x73 then
        match args with
        | [] => none
        | a :: args => (Sprintf rest args).map (fun out => a ++ out)
      else none
    else (Sprintf (d :: rest) args).map (fun out => c :: out)

/-- The value of a declared variable. -/
def lookupVar (name : GoString) : List (GoString × GoString) → Option GoString
  | [] => none
  | (n, v) :: vars => if n = name then some v else lookupVar name vars

/-- The method `Execute` of a template: the nodes are run in order, with the
variables declared so far; text and printed values are written out. -/
def execute (model : MetricTemplateModel) :
    List (GoString × GoString) → List Node → Option GoString
  | _, [] => some []
  | vars, .text s :: nodes => (execute model vars nodes).map (fun out => s ++ out)
  | vars, .print p :: nodes => (execute model vars nodes).map (fun out => p.value model ++ out)
  | vars, .printVar name :: nodes =>
    (lookupVar name vars).bind (fun v => (execute model vars nodes).map (fun out => v ++ out))
  | vars, .declPrintf name format args :: nodes =>
    (Sprintf format (args.map (Placeholder.value model))).bind
      (fun v => execute model ((name, v) :: vars) nodes)

/-- Modelled from the spec: the package function `RenderQuery`, which is
defined in `render.go` and not in `skipper.go`. The specification describes it
as a pure function `(template, model) -> (string, error)` that substitutes the
placeholders `namespace`, `ingress`, `service`, `target` and `interval` into
the query text, a rendering failure being an error of its own. -/
def RenderQuery : Renderer := fun queryTemplate model =>
  match parseTemplate queryTemplate with
  | none =>
    ([], some (Errorf (lit "template parsing failed: ") (.errorString (lit "template: tmpl"))))
  | some nodes =>
    match execute model [] nodes with
    | none =>
      ([], some (Errorf (lit "template execution failed: ")
        (.errorString (lit "template: tmpl"))))
    | some out => (out, none)

/-- A client that answers every query with the same pair and keeps no state. -/
def constClient (answer : Float64 × Option GoError) : Interface Unit where
  RunQuery _ s := (answer, s)

/-- A renderer that fails on every template. -/
def failingRenderer (err : GoError) : Renderer := fun _ _ => ([], some err)

/-- A model for examples: the workload `podinfo` in the namespace `test`. -/
def podinfoModel : MetricTemplateModel :=
  { Name := lit "podinfo", Namespace := lit "test", Target := lit "podinfo",
    Service := lit "podinfo", Ingress := lit "podinfo", Interval := lit "1m" }

/-- A model for examples: a workload in the namespace `my-ns`. -/
def hyphenModel : MetricTemplateModel :=
  { Name := lit "podinfo", Namespace := lit "my-ns", Target := lit "podinfo",
    Service := lit "podinfo", Ingress := lit "podinfo", Interval := lit "1m" }

/-- The method `GetRequestSuccessRate`, over the package function
`RenderQuery` and the state `s` of the backend. -/
def SkipperObserver.GetRequestSuccessRate {σ : Type} (RenderQuery : Renderer)
    (ob : SkipperObserver σ) (model : MetricTemplateModel) (s : σ) :
    (Float64 × Option GoError) × σ :=
  let model := encodeModelForSkipper model
  let (query, err) := RenderQuery (skipperQueries "request-success-rate") model
  match err with
  | some err => ((Float64.zero, some (Errorf (lit "rendering query failed: ") err)), s)
  | none =>
    let ((value, err), s) := ob.client.RunQuery query s
    match err with
    | some err => ((Float64.zero, some (Errorf (lit "running query failed: ") err)), s)
    | none => ((value, none), s)

/-- The method `GetRequestDuration`; the duration is a number of nanoseconds.
`undef` is the platform's result for an `int64` conversion out of range. -/
def SkipperObserver.GetRequestDuration {σ : Type} (RenderQuery : Renderer)
    (undef : Float64 → Int) (ob : SkipperObserver σ) (model : MetricTemplateModel) (s : σ) :
    (Int × Option GoError) × σ :=
  let model := encodeModelForSkipper model
  let (query, err) := RenderQuery (skipperQueries "request-duration") model
  match err with
  | some err => ((0, some (Errorf (lit "rendering query failed: ") err)), s)
  | none =>
    let ((value, err), s) := ob.client.RunQuery query s
    match err with
    | some err => ((0, some (Errorf (lit "running query failed: ") err)), s)
    | none =>
      let ms := wrap64 (toInt64 undef value * Millisecond)
      ((ms, none), s)

/-! ## Expected query texts -/

/-- The text of the success-rate query for a namespace label, a route matcher
and a range window: the template with its three kinds of placeholder filled. -/
def successRateQueryText (namespaceLabel route window : GoString) : GoString :=
  lit "\n" ++
  lit "\tsum(\n" ++
  lit "\t\trate(\n" ++
  lit "\t\t\tskipper_response_duration_seconds_bucket\x7b\n" ++
  lit "\t\t\t\tnamespace=\"" ++
  namespaceLabel ++
  lit "\",\n" ++
  lit "\t\t\t\troute=~\"" ++
  route ++
  lit "\",\n" ++
  lit "\t\t\t\tcode!~\"5..\",\n" ++
  lit "\t\t\t\tle=\"+Inf\"\n" ++
  lit "\t\t\t\x7d[" ++
  window ++
  lit "]\n" ++
  lit "\t\t)\n" ++
  lit "\t)\n" ++
  lit "\t/ \n" ++
  lit "\tsum(\n" ++
  lit "\t\trate(\n" ++
  lit "\t\t\tskipper_response_duration_seconds_bucket\x7b\n" ++
  lit "\t\t\t\tnamespace=\"" ++
  namespaceLabel ++
  lit "\",\n" ++
  lit "\t\t\t\troute=~\"" ++
  route ++
  lit "\",\n" ++
  lit "\t\t\t\tle=\"+Inf\"\n" ++
  lit "\t\t\t\x7d[" ++
  window ++
  lit "]\n" ++
  lit "\t\t)\n" ++
  lit "\t)\n" ++
  lit "\t* 100"

/-- The text of the duration query for a namespace label, a route matcher and
a range window. -/
def durationQueryText (namespaceLabel route window : GoString) : GoString :=
  lit "\n" ++
  lit "\tsum(\n" ++
  lit "\t\trate(\n" ++
  lit "\t\t\tskipper_response_duration_seconds_sum\x7b\n" ++
  lit "\t\t\t\tnamespace=\"" ++
  namespaceLabel ++
  lit "\",\n" ++
  lit "\t\t\t\troute=~\"" ++
  route ++
  lit "\"\n" ++
  lit "\t\t\t\x7d[" ++
  window ++
  lit "]\n" ++
  lit "\t\t)\n" ++
  lit "\t) \n" ++
  lit "\t/ \n" ++
  lit "\tsum(\n" ++
  lit "\t\trate(\n" ++
  lit "\t\t\tskipper_response_duration_seconds_count\x7b\n" ++
  lit "\t\t\t\tnamespace=\"" ++
  namespaceLabel ++
  lit "\",\n" ++
  lit "\t\t\t\troute=~\"" ++
  route ++
  lit "\"\n" ++
  lit "\t\t\t\x7d[" ++
  window ++
  lit "]\n" ++
  lit "\t\t)\n" ++
  lit "\t) \n" ++
  lit "\t* 1000"

/-- The route matcher of both queries, from the names as they stand in the
model handed to the template. -/
def routeMatcher (model : MetricTemplateModel) : GoString :=
  lit "kube_" ++ model.Namespace ++ lit "__" ++ model.Ingress ++ lit ".*__" ++ model.Service

/-- The number a finite `float64` is truncated to, as the usual floor and
ceiling: toward zero. -/
def truncTowardZero (q : ℚ) : Int := if 0 ≤ q then ⌊q⌋ else ⌈q⌉

/-! ## Models the observer cannot tell apart -/

/-- Two different models that the observer cannot tell apart: they have one
encoding, and both methods send the same query and return the same result
for them, whatever the client and its state. -/
def Collide (a b : MetricTemplateModel) : Prop :=
  a ≠ b ∧ encodeModelForSkipper a = encodeModelForSkipper b ∧
  ∀ (σ : Type) (undef : Float64 → Int) (c : Interface σ) (s : σ),
    SkipperObserver.GetRequestSuccessRate RenderQuery ⟨recording c⟩ a (s, []) =
      SkipperObserver.GetRequestSuccessRate RenderQuery ⟨recording c⟩ b (s, []) ∧
    SkipperObserver.GetRequestDuration RenderQuery undef ⟨recording c⟩ a (s, []) =
      SkipperObserver.GetRequestDuration RenderQuery undef ⟨recording c⟩ b (s, [])

/-! ## Lemmas on decoding -/

theorem le_lor_left (a b : Nat) : a ≤ a ||| b :=
  Nat.le_of_testBit (fun i h => by simp [Nat.testBit_or, h])

theorem le_lor_right (a b : Nat) : b ≤ a ||| b :=
  Nat.le_of_testBit (fun i h => by simp [Nat.testBit_or, h])

theorem isWord_lt {r : Nat} (h : isWord r = true) : r < 0x80 := by
  simp only [isWord, Bool.or_eq_true, Bool.and_eq_true, decide_eq_true_eq, beq_iff_eq] at h
  omega

theorem isWord_of_ge {r : Nat} (h : 0x80 ≤ r) : isWord r = false := by
  cases hw : isWord r
  · rfl
  · have := isWord_lt hw
    omega

theorem decode_ascii {b : Nat} (rest : GoString) (h : b < 0x80) :
    DecodeRuneInString (b :: rest) = (b, 1) := by
  simp [DecodeRuneInString, first, h]

theorem land_1F (b : Nat) : b &&& 0x1F = b % 32 := Nat.and_pow_two_sub_one_eq_mod b 5

theorem land_0F (b : Nat) : b &&& 0x0F = b % 16 := Nat.and_pow_two_sub_one_eq_mod b 4

theorem land_07 (b : Nat) : b &&& 0x07 = b % 8 := Nat.and_pow_two_sub_one_eq_mod b 3

theorem land_3F (b : Nat) : b &&& 0x3F = b % 64 := Nat.and_pow_two_sub_one_eq_mod b 6

/-- What the table says about a lead byte. -/
theorem first_lead {b sz lo hi : Nat} (h : first b = .lead sz lo hi) :
    0x80 ≤ lo ∧ hi ≤ 0xBF ∧
    ((sz = 2 ∧ 0xC2 ≤ b ∧ b < 0xE0) ∨
     (sz = 3 ∧ ((b = 0xE0 ∧ lo = 0xA0) ∨ (0xE1 ≤ b ∧ b < 0xF0))) ∨
     (sz = 4 ∧ ((b = 0xF0 ∧ lo = 0x90) ∨ (0xF1 ≤ b ∧ b < 0xF5)))) := by
  unfold first at h
  repeat' split at h
  all_goals cases h
  all_goals omega

theorem first_ascii {b : Nat} (h : first b = .ascii) : b < 0x80 := by
  unfold first at h
  repeat' split at h
  all_goals first | assumption | cases h

theorem rune2_ge (b s1 : Nat) (h : 0xC2 ≤ b) (h2 : b < 0xE0) :
    0x80 ≤ ((b &&& 0x1F) <<< 6) ||| (s1 &&& 0x3F) := by
  refine le_trans ?_ (le_lor_left _ _)
  rw [land_1F, Nat.shiftLeft_eq]
  norm_num
  omega

theorem rune3_ge (b s1 s2 : Nat)
    (h : (b = 0xE0 ∧ 0xA0 ≤ s1 ∧ s1 ≤ 0xBF) ∨ (0xE1 ≤ b ∧ b < 0xF0)) :
    0x80 ≤ ((b &&& 0x0F) <<< 12) ||| ((s1 &&& 0x3F) <<< 6) ||| (s2 &&& 0x3F) := by
  refine le_trans ?_ (le_lor_left _ _)
  rcases h with ⟨_, h1, h2⟩ | ⟨h1, h2⟩
  · refine le_trans ?_ (le_lor_right _ _)
    rw [land_3F, Nat.shiftLeft_eq]
    norm_num
    omega
  · refine le_trans ?_ (le_lor_left _ _)
    rw [land_0F, Nat.shiftLeft_eq]
    norm_num
    omega

theorem rune4_ge (b s1 s2 s3 : Nat)
    (h : (b = 0xF0 ∧ 0x90 ≤ s1 ∧ s1 ≤ 0xBF) ∨ (0xF1 ≤ b ∧ b < 0xF5)) :
    0x80 ≤ ((b &&& 0x07) <<< 18) ||| ((s1 &&& 0x3F) <<< 12) ||| ((s2 &&& 0x3F) <<< 6)
      ||| (s3 &&& 0x3F) := by
  refine le_trans ?_ (le_lor_left _ _)
  refine le_trans ?_ (le_lor_left _ _)
  rcases h with ⟨_, h1, h2⟩ | ⟨h1, h2⟩
  · refine le_trans ?_ (le_lor_right _ _)
    rw [land_3F, Nat.shiftLeft_eq]
    norm_num
    omega
  · refine le_trans ?_ (le_lor_left _ _)
    rw [land_07, Nat.shiftLeft_eq]
    norm_num
    omega

/-- A string that starts with a non-ASCII byte never decodes to a word rune:
overlong encodings of ASCII are rejected by the decoder. -/
theorem decode_nonascii {b : Nat} (rest : GoString) (h : 0x80 ≤ b) :
    0x80 ≤ (DecodeRuneInString (b :: rest)).1 := by
  unfold DecodeRuneInString
  simp only
  cases hf : first b with
  | ascii => have := first_ascii hf; omega
  | invalid => simp [RuneError]
  | lead sz lo hi =>
    obtain ⟨hlo, hhi, hsz⟩ := first_lead hf
    simp only
    repeat' split
    all_goals first
      | (simp only [RuneError]; omega)
      | (apply rune2_ge <;> omega)
      | (apply rune3_ge; omega)
      | (apply rune4_ge; omega)

/-- The width reported by the decoder on a non-empty string is at least one. -/
theorem decode_width_pos (b : Nat) (rest : GoString) :
    1 ≤ (DecodeRuneInString (b :: rest)).2 := by
  unfold DecodeRuneInString
  simp only
  cases hf : first b with
  | ascii => simp
  | invalid => simp
  | lead sz lo hi =>
    simp only
    repeat' split
    all_goals simp

/-! ## Lemmas on the replacement -/

theorem lit_underscore : lit "_" = [0x5F] := by decide

/-- A word rune at the head of a string is an ASCII byte decoded as itself. -/
theorem decode_of_isWord {b : Nat} {rest : GoString}
    (h : isWord (DecodeRuneInString (b :: rest)).1 = true) :
    b < 0x80 ∧ DecodeRuneInString (b :: rest) = (b, 1) := by
  have hb : b < 0x80 := by
    by_contra hge
    have h1 := decode_nonascii rest (Nat.le_of_not_lt hge)
    have h2 := isWord_lt h
    omega
  exact ⟨hb, decode_ascii rest hb⟩

theorem isWord_underscoreNonWord (r : Nat) : isWord (underscoreNonWord r) = true := by
  unfold underscoreNonWord
  split
  · assumption
  · decide

theorem underscoreNonWord_of_isWord {r : Nat} (h : isWord r = true) :
    underscoreNonWord r = r := by
  simp [underscoreNonWord, h]

/-- The replacement by `_` is, rune by rune, the map `underscoreNonWord`. -/
theorem replaceAllFrom_eq_map (k : Nat) (s : GoString) :
    replaceAllFrom (lit "_") k s = (runesFrom k s).map underscoreNonWord := by
  induction s generalizing k with
  | nil => cases k <;> simp [replaceAllFrom, runesFrom]
  | cons b rest ih =>
    cases k with
    | succ k => simp [replaceAllFrom, runesFrom, ih]
    | zero =>
      simp only [replaceAllFrom, runesFrom, List.map_cons, nonWord, ih]
      cases hw : isWord (DecodeRuneInString (b :: rest)).1 with
      | true =>
        obtain ⟨_, hd⟩ := decode_of_isWord hw
        have hb : isWord b = true := by rw [hd] at hw; exact hw
        simp [hd, underscoreNonWord, hb]
      | false => simp [underscoreNonWord, hw, lit_underscore]

theorem nonWordReplaceAllString_eq_map (s : GoString) :
    nonWordReplaceAllString s (lit "_") = (runes s).map underscoreNonWord :=
  replaceAllFrom_eq_map 0 s

/-- A string of word bytes is its own list of runes. -/
theorem runes_of_word_bytes {t : GoString} (h : ∀ c ∈ t, isWord c = true) : runes t = t := by
  unfold runes
  induction t with
  | nil => rfl
  | cons b rest ih =>
    have hb : b < 0x80 := isWord_lt (h b (List.mem_cons_self _ _))
    simp only [runesFrom, decode_ascii rest hb]
    rw [ih (fun c hc => h c (List.mem_cons_of_mem _ hc))]

/-- A string all of whose runes are word runes is its own list of runes. -/
theorem runes_of_word_runes {t : GoString} (h : ∀ r ∈ runes t, isWord r = true) :
    runes t = t := by
  unfold runes at h ⊢
  induction t with
  | nil => rfl
  | cons b rest ih =>
    have hw : isWord (DecodeRuneInString (b :: rest)).1 = true :=
      h _ (by simp [runesFrom])
    obtain ⟨_, hd⟩ := decode_of_isWord hw
    simp only [runesFrom, hd] at h ⊢
    rw [ih (fun r hr => h r (List.mem_cons_of_mem _ hr))]

theorem map_underscoreNonWord_of_word {t : List Nat} (h : ∀ c ∈ t, isWord c = true) :
    t.map underscoreNonWord = t := by
  induction t with
  | nil => rfl
  | cons b rest ih =>
    simp only [List.map_cons, underscoreNonWord_of_isWord (h b (List.mem_cons_self _ _))]
    rw [ih (fun c hc => h c (List.mem_cons_of_mem _ hc))]

theorem word_of_mem_map {l : List Nat} {c : Nat} (h : c ∈ l.map underscoreNonWord) :
    isWord c = true := by
  obtain ⟨r, _, rfl⟩ := List.mem_map.1 h
  exact isWord_underscoreNonWord r

/-- The output of the replacement is made of word bytes. -/
theorem replace_word_bytes (s : GoString) :
    ∀ c ∈ nonWordReplaceAllString s (lit "_"), isWord c = true := by
  intro c hc
  rw [nonWordReplaceAllString_eq_map] at hc
  exact word_of_mem_map hc

/-- The replacement leaves a string of word bytes as it is. -/
theorem replace_of_word_bytes {t : GoString} (h : ∀ c ∈ t, isWord c = true) :
    nonWordReplaceAllString t (lit "_") = t := by
  rw [nonWordReplaceAllString_eq_map, runes_of_word_bytes h, map_underscoreNonWord_of_word h]

theorem replace_idempotent (s : GoString) :
    nonWordReplaceAllString (nonWordReplaceAllString s (lit "_")) (lit "_") =
      nonWordReplaceAllString s (lit "_") :=
  replace_of_word_bytes (replace_word_bytes s)

/-! ## The encoding of a model -/

/-- What the encoding does to each field, in terms of the replacement. -/
theorem encodeModelForSkipper_fields (m : MetricTemplateModel) :
    encodeModelForSkipper m =
      { Name := nonWordReplaceAllString m.Name (lit "_"),
        Namespace := nonWordReplaceAllString m.Namespace (lit "_"),
        Target := nonWordReplaceAllString m.Target (lit "_"),
        Service := nonWordReplaceAllString m.Service (lit "_"),
        Ingress := nonWordReplaceAllString m.Ingress (lit "_"),
        Interval := m.Interval } := rfl

/-- C1: `encodeModelForSkipper` is idempotent: encoding an encoded model gives
the encoded model again, for every model, whatever bytes its fields hold. -/
theorem encodeModelForSkipper_idempotent (m : MetricTemplateModel) :
    encodeModelForSkipper (encodeModelForSkipper m) = encodeModelForSkipper m := by
  simp only [encodeModelForSkipper_fields, replace_idempotent]

/-- C3: each of the five fields of the encoded model is the input field with
every rune outside `[A-Za-z0-9_]` replaced by one `_` and every other rune
kept; hence the output holds only runes of `[A-Za-z0-9_]` and has as many
runes as the input. The class is ASCII only: every rune from `0x80` up, a
letter or digit or not, is replaced. -/
theorem encodeModelForSkipper_replaces (m : MetricTemplateModel) :
    Fieldwise (fun input output =>
        output = (runes input).map underscoreNonWord ∧
        runes output = (runes input).map underscoreNonWord ∧
        (∀ r ∈ runes output, isWord r = true) ∧
        (runes output).length = (runes input).length)
      m (encodeModelForSkipper m) ∧
    (∀ r, 0x80 ≤ r → underscoreNonWord r = 0x5F) := by
  have key : ∀ s : GoString,
      nonWordReplaceAllString s (lit "_") = (runes s).map underscoreNonWord ∧
      runes (nonWordReplaceAllString s (lit "_")) = (runes s).map underscoreNonWord ∧
      (∀ r ∈ runes (nonWordReplaceAllString s (lit "_")), isWord r = true) ∧
      (runes (nonWordReplaceAllString s (lit "_"))).length = (runes s).length := by
    intro s
    have h1 := nonWordReplaceAllString_eq_map s
    have h2 : runes (nonWordReplaceAllString s (lit "_")) =
        (runes s).map underscoreNonWord := by
      rw [runes_of_word_bytes (replace_word_bytes s), h1]
    refine ⟨h1, h2, ?_, ?_⟩
    · intro r hr
      rw [h2] at hr
      exact word_of_mem_map hr
    · rw [h2, List.length_map]
  refine ⟨⟨key _, key _, key _, key _, key _⟩, ?_⟩
  intro r hr
  simp [underscoreNonWord, isWord_of_ge hr]

/-- C2: the encoding keeps the runes of `[A-Za-z0-9_]`: a model whose five
fields hold only such runes is returned as it is, and in any model a rune of
`[A-Za-z0-9_]` stands unchanged at the same rune position of the output. -/
theorem encodeModelForSkipper_preserves_word (m : MetricTemplateModel) :
    ((∀ r ∈ runes m.Ingress, isWord r = true) → (∀ r ∈ runes m.Name, isWord r = true) →
      (∀ r ∈ runes m.Namespace, isWord r = true) → (∀ r ∈ runes m.Service, isWord r = true) →
      (∀ r ∈ runes m.Target, isWord r = true) → encodeModelForSkipper m = m) ∧
    Fieldwise (fun input output =>
        ∀ (i r : Nat), (runes input)[i]? = some r → isWord r = true →
          (runes output)[i]? = some r)
      m (encodeModelForSkipper m) := by
  constructor
  · intro h1 h2 h3 h4 h5
    have key : ∀ s : GoString, (∀ r ∈ runes s, isWord r = true) →
        nonWordReplaceAllString s (lit "_") = s := by
      intro s hs
      have hrs := runes_of_word_runes hs
      rw [hrs] at hs
      exact replace_of_word_bytes hs
    rw [encodeModelForSkipper_fields, key _ h1, key _ h2, key _ h3, key _ h4, key _ h5]
  · have key : ∀ s : GoString, ∀ (i r : Nat), (runes s)[i]? = some r → isWord r = true →
        (runes (nonWordReplaceAllString s (lit "_")))[i]? = some r := by
      intro s i r hi hr
      rw [runes_of_word_bytes (replace_word_bytes s), nonWordReplaceAllString_eq_map,
        List.getElem?_map, hi]
      simp [underscoreNonWord, hr]
    exact ⟨key _, key _, key _, key _, key _⟩

/-- Witness for C2 at a model of word runes, and at the rune `b` of `a-b`. -/
theorem encodeModelForSkipper_preserves_word_witness :
    encodeModelForSkipper
        ⟨lit "podinfo", lit "test_1", lit "podinfo", lit "podinfo_svc", lit "Ingress_2",
          lit "1m"⟩ =
      ⟨lit "podinfo", lit "test_1", lit "podinfo", lit "podinfo_svc", lit "Ingress_2",
        lit "1m"⟩ ∧
    (runes (encodeModelForSkipper
        ⟨lit "podinfo", lit "test", lit "podinfo", lit "a-b", lit "podinfo",
          lit "1m"⟩).Service)[2]? = some 0x62 :=
  ⟨(encodeModelForSkipper_preserves_word _).1 (by decide) (by decide) (by decide) (by decide)
      (by decide),
    (encodeModelForSkipper_preserves_word
      ⟨lit "podinfo", lit "test", lit "podinfo", lit "a-b", lit "podinfo", lit "1m"⟩).2.2.2.2.1
      2 0x62 (by decide) (by decide)⟩

/-! ## The two methods, case by case -/

theorem successRate_render_fail {σ : Type} {RenderQuery : Renderer} (ob : SkipperObserver σ)
    {model : MetricTemplateModel} (s : σ) {query : GoString} {e : GoError}
    (hr : RenderQuery (skipperQueries "request-success-rate") (encodeModelForSkipper model) =
      (query, some e)) :
    ob.GetRequestSuccessRate RenderQuery model s =
      ((Float64.zero, some (Errorf (lit "rendering query failed: ") e)), s) := by
  simp only [SkipperObserver.GetRequestSuccessRate, hr]

theorem successRate_client_fail {σ : Type} {RenderQuery : Renderer} (ob : SkipperObserver σ)
    {model : MetricTemplateModel} {s s1 : σ} {query : GoString} {value : Float64} {e : GoError}
    (hr : RenderQuery (skipperQueries "request-success-rate") (encodeModelForSkipper model) =
      (query, none))
    (hc : ob.client.RunQuery query s = ((value, some e), s1)) :
    ob.GetRequestSuccessRate RenderQuery model s =
      ((Float64.zero, some (Errorf (lit "running query failed: ") e)), s1) := by
  simp only [SkipperObserver.GetRequestSuccessRate, hr, hc]

theorem successRate_ok {σ : Type} {RenderQuery : Renderer} (ob : SkipperObserver σ)
    {model : MetricTemplateModel} {s s1 : σ} {query : GoString} {value : Float64}
    (hr : RenderQuery (skipperQueries "request-success-rate") (encodeModelForSkipper model) =
      (query, none))
    (hc : ob.client.RunQuery query s = ((value, none), s1)) :
    ob.GetRequestSuccessRate RenderQuery model s = ((value, none), s1) := by
  simp only [SkipperObserver.GetRequestSuccessRate, hr, hc]

theorem duration_render_fail {σ : Type} {RenderQuery : Renderer} (undef : Float64 → Int)
    (ob : SkipperObserver σ) {model : MetricTemplateModel} (s : σ) {query : GoString}
    {e : GoError}
    (hr : RenderQuery (skipperQueries "request-duration") (encodeModelForSkipper model) =
      (query, some e)) :
    ob.GetRequestDuration RenderQuery undef model s =
      ((0, some (Errorf (lit "rendering query failed: ") e)), s) := by
  simp only [SkipperObserver.GetRequestDuration, hr]

theorem duration_client_fail {σ : Type} {RenderQuery : Renderer} (undef : Float64 → Int)
    (ob : SkipperObserver σ) {model : MetricTemplateModel} {s s1 : σ} {query : GoString}
    {value : Float64} {e : GoError}
    (hr : RenderQuery (skipperQueries "request-duration") (encodeModelForSkipper model) =
      (query, none))
    (hc : ob.client.RunQuery query s = ((value, some e), s1)) :
    ob.GetRequestDuration RenderQuery undef model s =
      ((0, some (Errorf (lit "running query failed: ") e)), s1) := by
  simp only [SkipperObserver.GetRequestDuration, hr, hc]

theorem duration_ok {σ : Type} {RenderQuery : Renderer} (undef : Float64 → Int)
    (ob : SkipperObserver σ) {model : MetricTemplateModel} {s s1 : σ} {query : GoString}
    {value : Float64}
    (hr : RenderQuery (skipperQueries "request-duration") (encodeModelForSkipper model) =
      (query, none))
    (hc : ob.client.RunQuery query s = ((value, none), s1)) :
    ob.GetRequestDuration RenderQuery undef model s =
      ((wrap64 (toInt64 undef value * Millisecond), none), s1) := by
  simp only [SkipperObserver.GetRequestDuration, hr, hc]

/-- C4: `GetRequestSuccessRate` reports failure apart from a zero measurement:
its error is non-nil exactly when rendering fails or the client's `RunQuery`
fails; when both succeed it returns the client's value (zero included) with a
nil error; and with a non-nil error the value is 0. -/
theorem GetRequestSuccessRate_error_iff {σ : Type} (RenderQuery : Renderer)
    (ob : SkipperObserver σ) (model : MetricTemplateModel) (s : σ) :
    ((ob.GetRequestSuccessRate RenderQuery model s).1.2 ≠ none ↔
        ((RenderQuery (skipperQueries "request-success-rate")
            (encodeModelForSkipper model)).2 ≠ none ∨
          (ob.client.RunQuery (RenderQuery (skipperQueries "request-success-rate")
            (encodeModelForSkipper model)).1 s).1.2 ≠ none)) ∧
    ((RenderQuery (skipperQueries "request-success-rate")
          (encodeModelForSkipper model)).2 = none →
      (ob.client.RunQuery (RenderQuery (skipperQueries "request-success-rate")
          (encodeModelForSkipper model)).1 s).1.2 = none →
      (ob.GetRequestSuccessRate RenderQuery model s).1 =
        ((ob.client.RunQuery (RenderQuery (skipperQueries "request-success-rate")
          (encodeModelForSkipper model)).1 s).1.1, none)) ∧
    ((ob.GetRequestSuccessRate RenderQuery model s).1.2 ≠ none →
      (ob.GetRequestSuccessRate RenderQuery model s).1.1 = Float64.zero) := by
  rcases hr : RenderQuery (skipperQueries "request-success-rate")
      (encodeModelForSkipper model) with ⟨query, _ | e⟩
  · rcases hc : ob.client.RunQuery query s with ⟨⟨value, _ | e⟩, s1⟩
    · simp [successRate_ok ob hr hc]
    · simp [successRate_client_fail ob hr hc]
  · simp [successRate_render_fail ob s hr]

set_option maxRecDepth 100000 in
/-- Witness for C4: a client that measures 0 without error. -/
theorem GetRequestSuccessRate_error_iff_witness :
    (SkipperObserver.GetRequestSuccessRate RenderQuery
      ⟨constClient (Float64.finite 0, none)⟩
      podinfoModel ()).1 =
      (Float64.finite 0, none) :=
  (GetRequestSuccessRate_error_iff RenderQuery ⟨constClient (Float64.finite 0, none)⟩
    podinfoModel ()).2.1
    (by decide) rfl


/-- C9: a rendering failure stops the call before the backend is reached: the
client records no query and keeps its state, and the result is a zero value
with the render error wrapped under "rendering query failed: ". When
rendering succeeds and the client fails, exactly one query, the rendered one,
was run and the client's error is wrapped under "running query failed: ". -/
theorem render_failure_short_circuits {σ : Type} (RenderQuery : Renderer)
    (undef : Float64 → Int) (c : Interface σ) (model : MetricTemplateModel) (s : σ) :
    (∀ e, (RenderQuery (skipperQueries "request-success-rate")
          (encodeModelForSkipper model)).2 = some e →
      SkipperObserver.GetRequestSuccessRate RenderQuery ⟨recording c⟩ model (s, []) =
        ((Float64.zero,
          some (.wrapError (lit "rendering query failed: " ++ e.Error) e)), (s, []))) ∧
    (∀ e, (RenderQuery (skipperQueries "request-duration")
          (encodeModelForSkipper model)).2 = some e →
      SkipperObserver.GetRequestDuration RenderQuery undef ⟨recording c⟩ model (s, []) =
        ((0, some (.wrapError (lit "rendering query failed: " ++ e.Error) e)), (s, []))) ∧
    (∀ query e, RenderQuery (skipperQueries "request-success-rate")
          (encodeModelForSkipper model) = (query, none) →
      (c.RunQuery query s).1.2 = some e →
      SkipperObserver.GetRequestSuccessRate RenderQuery ⟨recording c⟩ model (s, []) =
        ((Float64.zero, some (.wrapError (lit "running query failed: " ++ e.Error) e)),
          ((c.RunQuery query s).2, [query]))) ∧
    (∀ query e, RenderQuery (skipperQueries "request-duration")
          (encodeModelForSkipper model) = (query, none) →
      (c.RunQuery query s).1.2 = some e →
      SkipperObserver.GetRequestDuration RenderQuery undef ⟨recording c⟩ model (s, []) =
        ((0, some (.wrapError (lit "running query failed: " ++ e.Error) e)),
          ((c.RunQuery query s).2, [query]))) := by
  refine ⟨?_, ?_, ?_, ?_⟩
  · intro e he
    exact successRate_render_fail _ _ (Prod.ext rfl he)
  · intro e he
    exact duration_render_fail undef _ _ (Prod.ext rfl he)
  · intro query e hr he
    have hrec : (recording c).RunQuery query (s, []) =
        (((c.RunQuery query s).1.1, some e), ((c.RunQuery query s).2, [query])) := by
      simp [recording, ← he]
    exact successRate_client_fail ⟨recording c⟩ hr hrec
  · intro query e hr he
    have hrec : (recording c).RunQuery query (s, []) =
        (((c.RunQuery query s).1.1, some e), ((c.RunQuery query s).2, [query])) := by
      simp [recording, ← he]
    exact duration_client_fail undef ⟨recording c⟩ hr hrec

set_option maxRecDepth 100000 in
/-- Witness for C9: a renderer that fails, and a client that fails. -/
theorem render_failure_short_circuits_witness :
    SkipperObserver.GetRequestSuccessRate
        (failingRenderer (.errorString (lit "template: tmpl")))
        ⟨recording (constClient (Float64.finite 1, none))⟩
        podinfoModel ((), []) =
      ((Float64.zero,
        some (.wrapError (lit "rendering query failed: template: tmpl")
          (.errorString (lit "template: tmpl")))), ((), [])) ∧
    (SkipperObserver.GetRequestDuration RenderQuery (fun _ => 0)
        ⟨recording (constClient (Float64.finite 7, some (.errorString (lit "timeout"))))⟩
        podinfoModel ((), [])).1 =
      (0, some (.wrapError (lit "running query failed: timeout")
        (.errorString (lit "timeout")))) :=
  ⟨(render_failure_short_circuits (failingRenderer (.errorString (lit "template: tmpl")))
      (fun _ => 0) (constClient (Float64.finite 1, none)) _ ()).1 _ rfl,
    congrArg Prod.fst
      ((render_failure_short_circuits RenderQuery (fun _ => 0)
        (constClient (Float64.finite 7, some (.errorString (lit "timeout"))))
        podinfoModel ()).2.2.2
        (RenderQuery (skipperQueries "request-duration") (encodeModelForSkipper podinfoModel)).1
        _ (by decide) rfl)⟩


/-! ## The conversion to a duration -/

/-- Discarding the fraction is truncation toward zero. -/
theorem truncRat_eq (q : ℚ) : truncRat q = truncTowardZero q := by
  unfold truncRat truncTowardZero
  split
  · rename_i h
    rw [Int.tdiv_eq_ediv (Rat.num_nonneg.2 h) (Int.natCast_nonneg _), Rat.floor_def]
  · rename_i h
    have hneg : 0 ≤ -q := by linarith
    have h1 : ⌈q⌉ = -⌊-q⌋ := by rw [← Int.ceil_neg, neg_neg]
    rw [h1, Rat.floor_def, Rat.neg_num, Rat.neg_den,
      ← Int.tdiv_eq_ediv (by have := Rat.num_nonneg.2 hneg; simpa using this)
        (Int.natCast_nonneg _), Int.neg_tdiv, neg_neg]

theorem wrap64_of_fits {z : Int} (h : -2 ^ 63 ≤ z ∧ z < 2 ^ 63) : wrap64 z = z := by
  unfold wrap64
  omega

/-- The conversion of a value that denotes `q` whose truncation is an `int64`. -/
theorem toInt64_of_real (undef : Float64 → Int) {value : Float64} {q : ℚ}
    (hv : value.real = some q)
    (h : -2 ^ 63 ≤ truncTowardZero q ∧ truncTowardZero q < 2 ^ 63) :
    toInt64 undef value = truncTowardZero q := by
  cases value with
  | finite p =>
    simp only [Float64.real, Option.some.injEq] at hv
    subst hv
    rw [← truncRat_eq] at h
    simp only [toInt64]
    rw [if_pos h, truncRat_eq]
  | negZero =>
    simp only [Float64.real, Option.some.injEq] at hv
    subst hv
    simp [toInt64, truncTowardZero]
  | posInf => simp [Float64.real] at hv
  | negInf => simp [Float64.real] at hv
  | NaN => simp [Float64.real] at hv

/-- C8: when rendering and the client succeed with a value that denotes the
number `q`, `GetRequestDuration` returns `q` truncated toward zero, as whole
milliseconds: `trunc q * 1000000` nanoseconds with a nil error, provided that
number is an `int64`. A value with `0 ≤ q < 1` gives the zero duration, a
whole number `n` gives `n` milliseconds. -/
theorem GetRequestDuration_truncates {σ : Type} (RenderQuery : Renderer)
    (undef : Float64 → Int) (ob : SkipperObserver σ) (model : MetricTemplateModel)
    (s s1 : σ) (query : GoString) (value : Float64) (q : ℚ)
    (hr : RenderQuery (skipperQueries "request-duration") (encodeModelForSkipper model) =
      (query, none))
    (hc : ob.client.RunQuery query s = ((value, none), s1))
    (hv : value.real = some q) :
    (-2 ^ 63 ≤ truncTowardZero q * 1000000 ∧ truncTowardZero q * 1000000 < 2 ^ 63 →
      ob.GetRequestDuration RenderQuery undef model s =
        ((truncTowardZero q * 1000000, none), s1)) ∧
    (0 ≤ q → q < 1 →
      ob.GetRequestDuration RenderQuery undef model s = ((0, none), s1)) ∧
    (∀ n : Int, q = n → -2 ^ 63 ≤ n * 1000000 ∧ n * 1000000 < 2 ^ 63 →
      ob.GetRequestDuration RenderQuery undef model s = ((n * Millisecond, none), s1)) := by
  have main : -2 ^ 63 ≤ truncTowardZero q * 1000000 ∧ truncTowardZero q * 1000000 < 2 ^ 63 →
      ob.GetRequestDuration RenderQuery undef model s =
        ((truncTowardZero q * 1000000, none), s1) := by
    intro hfit
    have hfit1 : -2 ^ 63 ≤ truncTowardZero q ∧ truncTowardZero q < 2 ^ 63 := by omega
    rw [duration_ok undef ob hr hc, toInt64_of_real undef hv hfit1, Millisecond,
      wrap64_of_fits hfit]
  refine ⟨main, ?_, ?_⟩
  · intro h0 h1
    have ht : truncTowardZero q = 0 := by
      simp only [truncTowardZero, if_pos h0]
      exact Int.floor_eq_zero_iff.2 ⟨h0, h1⟩
    have := main (by rw [ht]; norm_num)
    rw [this, ht]
    norm_num
  · intro n hn hfit
    have ht : truncTowardZero q = n := by
      subst hn
      simp [truncTowardZero]
    rw [← ht] at hfit ⊢
    rw [main hfit, Millisecond]


theorem truncTowardZero_five_halves : truncTowardZero (5 / 2) = 2 := by
  have h : (0 : ℚ) ≤ 5 / 2 := by norm_num
  rw [truncTowardZero, if_pos h, Int.floor_eq_iff]
  norm_num

theorem truncTowardZero_neg_five_halves : truncTowardZero (-5 / 2) = -2 := by
  have h : ¬ (0 : ℚ) ≤ -5 / 2 := by norm_num
  rw [truncTowardZero, if_neg h, Int.ceil_eq_iff]
  norm_num

set_option maxRecDepth 100000 in
/-- Witness for C8: the values 2.5, -2.5, 0.5 and 3. -/
theorem GetRequestDuration_truncates_witness :
    SkipperObserver.GetRequestDuration RenderQuery (fun _ => 0)
        ⟨constClient (Float64.finite (5 / 2), none)⟩ podinfoModel () =
      ((2000000, none), ()) ∧
    SkipperObserver.GetRequestDuration RenderQuery (fun _ => 0)
        ⟨constClient (Float64.finite (-5 / 2), none)⟩ podinfoModel () =
      ((-2000000, none), ()) ∧
    SkipperObserver.GetRequestDuration RenderQuery (fun _ => 0)
        ⟨constClient (Float64.finite (1 / 2), none)⟩ podinfoModel () =
      ((0, none), ()) ∧
    SkipperObserver.GetRequestDuration RenderQuery (fun _ => 0)
        ⟨constClient (Float64.finite 3, none)⟩ podinfoModel () =
      ((3 * Millisecond, none), ()) :=
  ⟨by
      have h := (GetRequestDuration_truncates RenderQuery (fun _ => 0)
        ⟨constClient (Float64.finite (5 / 2), none)⟩ podinfoModel () ()
        (RenderQuery (skipperQueries "request-duration") (encodeModelForSkipper podinfoModel)).1
        (Float64.finite (5 / 2)) (5 / 2) (by decide) rfl rfl).1
      rw [truncTowardZero_five_halves] at h
      exact h (by norm_num),
    by
      have h := (GetRequestDuration_truncates RenderQuery (fun _ => 0)
        ⟨constClient (Float64.finite (-5 / 2), none)⟩ podinfoModel () ()
        (RenderQuery (skipperQueries "request-duration") (encodeModelForSkipper podinfoModel)).1
        (Float64.finite (-5 / 2)) (-5 / 2) (by decide) rfl rfl).1
      rw [truncTowardZero_neg_five_halves] at h
      exact h (by norm_num),
    (GetRequestDuration_truncates RenderQuery (fun _ => 0)
      ⟨constClient (Float64.finite (1 / 2), none)⟩ podinfoModel () ()
      (RenderQuery (skipperQueries "request-duration") (encodeModelForSkipper podinfoModel)).1
      (Float64.finite (1 / 2)) (1 / 2) (by decide) rfl rfl).2.1 (by norm_num) (by norm_num),
    (GetRequestDuration_truncates RenderQuery (fun _ => 0)
      ⟨constClient (Float64.finite 3, none)⟩ podinfoModel () ()
      (RenderQuery (skipperQueries "request-duration") (encodeModelForSkipper podinfoModel)).1
      (Float64.finite 3) 3 (by decide) rfl rfl).2.2 3 (by norm_num) (by norm_num)⟩


/-! ## The rendered queries -/

set_option maxRecDepth 100000 in
theorem parse_success_rate :
    parseTemplate (skipperQueries "request-success-rate") = some
    [.text [],
     .declPrintf (lit "route") (lit "kube_%s__%s.*__%s") [.namespace_, .ingress, .service],
     .text (lit "\n" ++ lit "\tsum(\n" ++ lit "\t\trate(\n" ++
        lit "\t\t\tskipper_response_duration_seconds_bucket\x7b\n" ++
        lit "\t\t\t\tnamespace=\""),
     .print .namespace_,
     .text (lit "\",\n" ++ lit "\t\t\t\troute=~\""),
     .printVar (lit "route"),
     .text (lit "\",\n" ++ lit "\t\t\t\tcode!~\"5..\",\n" ++ lit "\t\t\t\tle=\"+Inf\"\n" ++
        lit "\t\t\t\x7d["),
     .print .interval,
     .text (lit "]\n" ++ lit "\t\t)\n" ++ lit "\t)\n" ++ lit "\t/ \n" ++ lit "\tsum(\n" ++
        lit "\t\trate(\n" ++ lit "\t\t\tskipper_response_duration_seconds_bucket\x7b\n" ++
        lit "\t\t\t\tnamespace=\""),
     .print .namespace_,
     .text (lit "\",\n" ++ lit "\t\t\t\troute=~\""),
     .printVar (lit "route"),
     .text (lit "\",\n" ++ lit "\t\t\t\tle=\"+Inf\"\n" ++ lit "\t\t\t\x7d["),
     .print .interval,
     .text (lit "]\n" ++ lit "\t\t)\n" ++ lit "\t)\n" ++ lit "\t* 100")] := by
  decide

set_option maxRecDepth 100000 in
theorem parse_duration :
    parseTemplate (skipperQueries "request-duration") = some
    [.text [],
     .declPrintf (lit "route") (lit "kube_%s__%s.*__%s") [.namespace_, .ingress, .service],
     .text (lit "\n" ++ lit "\tsum(\n" ++ lit "\t\trate(\n" ++
        lit "\t\t\tskipper_response_duration_seconds_sum\x7b\n" ++ lit "\t\t\t\tnamespace=\""),
     .print .namespace_,
     .text (lit "\",\n" ++ lit "\t\t\t\troute=~\""),
     .printVar (lit "route"),
     .text (lit "\"\n" ++ lit "\t\t\t\x7d["),
     .print .interval,
     .text (lit "]\n" ++ lit "\t\t)\n" ++ lit "\t) \n" ++ lit "\t/ \n" ++ lit "\tsum(\n" ++
        lit "\t\trate(\n" ++ lit "\t\t\tskipper_response_duration_seconds_count\x7b\n" ++
        lit "\t\t\t\tnamespace=\""),
     .print .namespace_,
     .text (lit "\",\n" ++ lit "\t\t\t\troute=~\""),
     .printVar (lit "route"),
     .text (lit "\"\n" ++ lit "\t\t\t\x7d["),
     .print .interval,
     .text (lit "]\n" ++ lit "\t\t)\n" ++ lit "\t) \n" ++ lit "\t* 1000")] := by
  decide
theorem Sprintf_route (a b c : GoString) :
    Sprintf (lit "kube_%s__%s.*__%s") [a, b, c] =
      some (lit "kube_" ++ a ++ lit "__" ++ b ++ lit ".*__" ++ c) := by
  have h : Sprintf (lit "kube_%s__%s.*__%s") [a, b, c] =
      some (lit "kube_" ++ (a ++ (lit "__" ++ (b ++ (lit ".*__" ++ (c ++ [])))))) := rfl
  rw [h]
  simp only [List.append_assoc, List.append_nil]

/-- The rendered success-rate query, for every model. -/
theorem render_success_rate (m : MetricTemplateModel) :
    RenderQuery (skipperQueries "request-success-rate") m =
      (successRateQueryText m.Namespace (routeMatcher m) m.Interval, none) := by
  unfold RenderQuery
  rw [parse_success_rate]
  simp [execute, lookupVar, Sprintf_route, successRateQueryText, routeMatcher, Placeholder.value]

/-- The rendered duration query, for every model. -/
theorem render_duration (m : MetricTemplateModel) :
    RenderQuery (skipperQueries "request-duration") m =
      (durationQueryText m.Namespace (routeMatcher m) m.Interval, none) := by
  unfold RenderQuery
  rw [parse_duration]
  simp [execute, lookupVar, Sprintf_route, durationQueryText, routeMatcher, Placeholder.value]

/-- With a recording client, the success-rate method leaves exactly the
rendered query in the record. -/
theorem successRate_recorded {σ : Type} (c : Interface σ) (m : MetricTemplateModel) (s : σ) :
    (SkipperObserver.GetRequestSuccessRate RenderQuery ⟨recording c⟩ m (s, [])).2 =
      ((c.RunQuery (successRateQueryText (encodeModelForSkipper m).Namespace
          (routeMatcher (encodeModelForSkipper m)) m.Interval) s).2,
        [successRateQueryText (encodeModelForSkipper m).Namespace
          (routeMatcher (encodeModelForSkipper m)) m.Interval]) := by
  have hr := render_success_rate (encodeModelForSkipper m)
  rw [show (encodeModelForSkipper m).Interval = m.Interval from rfl] at hr
  rcases hc : c.RunQuery (successRateQueryText (encodeModelForSkipper m).Namespace
      (routeMatcher (encodeModelForSkipper m)) m.Interval) s with ⟨⟨value, _ | e⟩, s1⟩
  · have hrec : (recording c).RunQuery (successRateQueryText (encodeModelForSkipper m).Namespace
        (routeMatcher (encodeModelForSkipper m)) m.Interval) (s, []) =
        ((value, none), (s1, [successRateQueryText (encodeModelForSkipper m).Namespace
          (routeMatcher (encodeModelForSkipper m)) m.Interval])) := by
      simp [recording, hc]
    rw [successRate_ok ⟨recording c⟩ hr hrec]
  · have hrec : (recording c).RunQuery (successRateQueryText (encodeModelForSkipper m).Namespace
        (routeMatcher (encodeModelForSkipper m)) m.Interval) (s, []) =
        ((value, some e), (s1, [successRateQueryText (encodeModelForSkipper m).Namespace
          (routeMatcher (encodeModelForSkipper m)) m.Interval])) := by
      simp [recording, hc]
    rw [successRate_client_fail ⟨recording c⟩ hr hrec]

/-- With a recording client, the duration method leaves exactly the rendered
query in the record. -/
theorem duration_recorded {σ : Type} (undef : Float64 → Int) (c : Interface σ)
    (m : MetricTemplateModel) (s : σ) :
    (SkipperObserver.GetRequestDuration RenderQuery undef ⟨recording c⟩ m (s, [])).2 =
      ((c.RunQuery (durationQueryText (encodeModelForSkipper m).Namespace
          (routeMatcher (encodeModelForSkipper m)) m.Interval) s).2,
        [durationQueryText (encodeModelForSkipper m).Namespace
          (routeMatcher (encodeModelForSkipper m)) m.Interval]) := by
  have hr := render_duration (encodeModelForSkipper m)
  rw [show (encodeModelForSkipper m).Interval = m.Interval from rfl] at hr
  rcases hc : c.RunQuery (durationQueryText (encodeModelForSkipper m).Namespace
      (routeMatcher (encodeModelForSkipper m)) m.Interval) s with ⟨⟨value, _ | e⟩, s1⟩
  · have hrec : (recording c).RunQuery (durationQueryText (encodeModelForSkipper m).Namespace
        (routeMatcher (encodeModelForSkipper m)) m.Interval) (s, []) =
        ((value, none), (s1, [durationQueryText (encodeModelForSkipper m).Namespace
          (routeMatcher (encodeModelForSkipper m)) m.Interval])) := by
      simp [recording, hc]
    rw [duration_ok undef ⟨recording c⟩ hr hrec]
  · have hrec : (recording c).RunQuery (durationQueryText (encodeModelForSkipper m).Namespace
        (routeMatcher (encodeModelForSkipper m)) m.Interval) (s, []) =
        ((value, some e), (s1, [durationQueryText (encodeModelForSkipper m).Namespace
          (routeMatcher (encodeModelForSkipper m)) m.Interval])) := by
      simp [recording, hc]
    rw [duration_client_fail undef ⟨recording c⟩ hr hrec]

/-- The success-rate method depends on the model through the rendered query. -/
theorem successRate_congr {σ : Type} {RenderQuery : Renderer} (ob : SkipperObserver σ)
    {m₁ m₂ : MetricTemplateModel} (s : σ)
    (h : RenderQuery (skipperQueries "request-success-rate") (encodeModelForSkipper m₁) =
      RenderQuery (skipperQueries "request-success-rate") (encodeModelForSkipper m₂)) :
    ob.GetRequestSuccessRate RenderQuery m₁ s = ob.GetRequestSuccessRate RenderQuery m₂ s := by
  simp only [SkipperObserver.GetRequestSuccessRate, h]

/-- The duration method depends on the model through the rendered query. -/
theorem duration_congr {σ : Type} {RenderQuery : Renderer} (undef : Float64 → Int)
    (ob : SkipperObserver σ) {m₁ m₂ : MetricTemplateModel} (s : σ)
    (h : RenderQuery (skipperQueries "request-duration") (encodeModelForSkipper m₁) =
      RenderQuery (skipperQueries "request-duration") (encodeModelForSkipper m₂)) :
    ob.GetRequestDuration RenderQuery undef m₁ s =
      ob.GetRequestDuration RenderQuery undef m₂ s := by
  simp only [SkipperObserver.GetRequestDuration, h]


/-! ## What the queries depend on -/

/-- C7: the result of both methods depends on the model through `Namespace`,
`Ingress`, `Service` and `Interval` only: two models that agree on these four
fields give, with the same client in the same state, the same value, error,
final state and recorded query. The query has the route matcher
`kube_<ns>__<ingress>.*__<service>` over the encoded names and the range
window `Interval` as it stands. -/
theorem queries_depend_on_scope {σ : Type} (undef : Float64 → Int) (c : Interface σ)
    (m₁ m₂ : MetricTemplateModel) (s : σ)
    (hns : m₁.Namespace = m₂.Namespace) (hing : m₁.Ingress = m₂.Ingress)
    (hsvc : m₁.Service = m₂.Service) (hint : m₁.Interval = m₂.Interval) :
    SkipperObserver.GetRequestSuccessRate RenderQuery ⟨recording c⟩ m₁ (s, []) =
      SkipperObserver.GetRequestSuccessRate RenderQuery ⟨recording c⟩ m₂ (s, []) ∧
    SkipperObserver.GetRequestDuration RenderQuery undef ⟨recording c⟩ m₁ (s, []) =
      SkipperObserver.GetRequestDuration RenderQuery undef ⟨recording c⟩ m₂ (s, []) ∧
    (SkipperObserver.GetRequestSuccessRate RenderQuery ⟨recording c⟩ m₁ (s, [])).2.2 =
      [successRateQueryText (nonWordReplaceAllString m₁.Namespace (lit "_"))
        (lit "kube_" ++ nonWordReplaceAllString m₁.Namespace (lit "_") ++ lit "__" ++
          nonWordReplaceAllString m₁.Ingress (lit "_") ++ lit ".*__" ++
          nonWordReplaceAllString m₁.Service (lit "_"))
        m₁.Interval] ∧
    (SkipperObserver.GetRequestDuration RenderQuery undef ⟨recording c⟩ m₁ (s, [])).2.2 =
      [durationQueryText (nonWordReplaceAllString m₁.Namespace (lit "_"))
        (lit "kube_" ++ nonWordReplaceAllString m₁.Namespace (lit "_") ++ lit "__" ++
          nonWordReplaceAllString m₁.Ingress (lit "_") ++ lit ".*__" ++
          nonWordReplaceAllString m₁.Service (lit "_"))
        m₁.Interval] := by
  refine ⟨?_, ?_, ?_, ?_⟩
  · apply successRate_congr
    rw [render_success_rate, render_success_rate]
    simp only [encodeModelForSkipper_fields, routeMatcher, hns, hing, hsvc, hint]
  · apply duration_congr
    rw [render_duration, render_duration]
    simp only [encodeModelForSkipper_fields, routeMatcher, hns, hing, hsvc, hint]
  · rw [successRate_recorded]
    rfl
  · rw [duration_recorded]
    rfl

/-- Witness for C7: two models that differ in `Name` and `Target` only. -/
theorem queries_depend_on_scope_witness :
    SkipperObserver.GetRequestSuccessRate RenderQuery
        ⟨recording (constClient (Float64.finite 99, none))⟩
        podinfoModel ((), []) =
      SkipperObserver.GetRequestSuccessRate RenderQuery
        ⟨recording (constClient (Float64.finite 99, none))⟩
        { podinfoModel with Name := lit "other", Target := lit "other-primary" } ((), []) :=
  (queries_depend_on_scope (fun _ => 0) (constClient (Float64.finite 99, none))
    podinfoModel { podinfoModel with Name := lit "other", Target := lit "other-primary" } ()
    rfl rfl rfl rfl).1

theorem collide_of_encode_eq {a b : MetricTemplateModel} (hne : a ≠ b)
    (h : encodeModelForSkipper a = encodeModelForSkipper b) : Collide a b :=
  ⟨hne, h, fun _ undef _ _ =>
    ⟨successRate_congr _ _ (by rw [h]), duration_congr undef _ _ (by rw [h])⟩⟩

/-- C10: the encoding is not injective. The names `a-b`, `a.b` and `a_b`, as
service, as namespace or as ingress of otherwise equal models, give different
models with one encoding, for which both methods send one and the same query
to the backend. -/
theorem encodeModelForSkipper_not_injective :
    (Collide { podinfoModel with Service := lit "a-b" }
        { podinfoModel with Service := lit "a.b" } ∧
      Collide { podinfoModel with Service := lit "a.b" }
        { podinfoModel with Service := lit "a_b" } ∧
      Collide { podinfoModel with Service := lit "a-b" }
        { podinfoModel with Service := lit "a_b" }) ∧
    (Collide { podinfoModel with Namespace := lit "a-b" }
        { podinfoModel with Namespace := lit "a.b" } ∧
      Collide { podinfoModel with Namespace := lit "a.b" }
        { podinfoModel with Namespace := lit "a_b" } ∧
      Collide { podinfoModel with Namespace := lit "a-b" }
        { podinfoModel with Namespace := lit "a_b" }) ∧
    (Collide { podinfoModel with Ingress := lit "a-b" }
        { podinfoModel with Ingress := lit "a.b" } ∧
      Collide { podinfoModel with Ingress := lit "a.b" }
        { podinfoModel with Ingress := lit "a_b" } ∧
      Collide { podinfoModel with Ingress := lit "a-b" }
        { podinfoModel with Ingress := lit "a_b" }) :=
  ⟨⟨collide_of_encode_eq (by decide) (by decide), collide_of_encode_eq (by decide) (by decide),
      collide_of_encode_eq (by decide) (by decide)⟩,
    ⟨collide_of_encode_eq (by decide) (by decide), collide_of_encode_eq (by decide) (by decide),
      collide_of_encode_eq (by decide) (by decide)⟩,
    ⟨collide_of_encode_eq (by decide) (by decide), collide_of_encode_eq (by decide) (by decide),
      collide_of_encode_eq (by decide) (by decide)⟩⟩

set_option maxRecDepth 100000 in
/-- C6, at the model `hyphenModel` whose namespace is `my-ns`: the query that
`GetRequestSuccessRate` sends has the namespace matcher `namespace="my_ns"`,
the encoded name, and is not the query with the matcher `namespace="my-ns"`
of the namespace as the caller supplied it. -/
theorem namespace_matcher_is_encoded :
    (SkipperObserver.GetRequestSuccessRate RenderQuery
        ⟨recording (constClient (Float64.finite 100, none))⟩ hyphenModel ((), [])).2.2 =
      [successRateQueryText (lit "my_ns") (lit "kube_my_ns__podinfo.*__podinfo") (lit "1m")] ∧
    (SkipperObserver.GetRequestDuration RenderQuery (fun _ => 0)
        ⟨recording (constClient (Float64.finite 100, none))⟩ hyphenModel ((), [])).2.2 =
      [durationQueryText (lit "my_ns") (lit "kube_my_ns__podinfo.*__podinfo") (lit "1m")] ∧
    successRateQueryText (lit "my_ns") (lit "kube_my_ns__podinfo.*__podinfo") (lit "1m") ≠
      successRateQueryText hyphenModel.Namespace (lit "kube_my_ns__podinfo.*__podinfo")
        hyphenModel.Interval ∧
    durationQueryText (lit "my_ns") (lit "kube_my_ns__podinfo.*__podinfo") (lit "1m") ≠
      durationQueryText hyphenModel.Namespace (lit "kube_my_ns__podinfo.*__podinfo")
        hyphenModel.Interval := by
  decide

end Skipper
